import Mathlib

/-!
Shallow embedding of src/diffusers_helper/load_lora.py: LoRA adapter
management for a video-diffusion transformer (load_lora, unload_all_loras,
apply_lora_scaling, set_adapters).  External diffusers/peft calls are
modelled through the interface the spec's section 6 describes; numeric
strengths are only stored and copied by this code, so they are embedded as
rationals.
-/

set_option maxRecDepth 4000

namespace FramePackLora

/-- A value held in a module's scaling state: either a device-resident
tensor wrapping a scalar (torch.Tensor), or a plain Python number. -/
inductive ScaleVal where
  | tensor (value : ℚ) (device : String)
  | number (value : ℚ)
deriving DecidableEq, Repr

/-- A module's `scaling` attribute: either a per-adapter dict mapping
adapter name to scale value (the PEFT case), or a single direct value
(the legacy non-dict case the code's else branch handles). -/
inductive ScalingAttr where
  | dict (entries : List (String × ScaleVal))
  | direct (v : ScaleVal)
deriving DecidableEq, Repr

/-- A module's `lora_A` / `lora_B` attribute: a per-adapter dict (only its
key set matters to this code, which at most clears it) or some non-dict
value that the code leaves alone. -/
inductive LoraAttr where
  | dict (keys : List String)
  | nondict
deriving DecidableEq, Repr

/-- One submodule of the transformer, with the three optional attributes
the code probes via hasattr. -/
structure Module where
  lora_A : Option LoraAttr
  lora_B : Option LoraAttr
  scaling : Option ScalingAttr
deriving DecidableEq, Repr

/-- The transformer model.  `peft_config` is the adapter registry keyed by
adapter name (none = the attribute is absent, as hasattr sees it);
`active_adapter` likewise wraps presence of the attribute around its value;
`modules` is the list traversed by transformer.modules() /
transformer.named_modules(). -/
structure Transformer where
  peft_config : Option (List String)
  active_adapter : Option (Option String)
  modules : List Module
deriving DecidableEq, Repr

/-- The adapter registry as a list of names (empty when the attribute is
absent). -/
def registry (t : Transformer) : List String :=
  t.peft_config.getD []

/- ── Adapter-name derivation (load_lora line 39):
   str(PurePath(weight_name).with_suffix('')).replace('.', '_DOT_').
   For a plain file name (nonempty, not "." or "..", no path separator)
   PurePath(w).name = w and str is the identity, so the derivation acts on
   the raw character list. ── -/

/-- Index of the last '.' in a name, as Python's str.rfind('.') (none when
there is no dot). -/
def lastDotIdx (name : List Char) : Option Nat :=
  match name.reverse.findIdx? (fun c => c = '.') with
  | some j => some (name.length - 1 - j)
  | none => none

/-- pathlib's with_suffix(''): drop the final extension.  The suffix is
name[i:] for i = rfind('.') only when 0 < i < len(name) - 1 (a leading dot
or a trailing dot is not a suffix); otherwise the name is unchanged. -/
def withSuffixStripped (name : List Char) : List Char :=
  match lastDotIdx name with
  | some i => if 0 < i ∧ i < name.length - 1 then name.take i else name
  | none => name

/-- str.replace('.', '_DOT_'): every '.' character becomes the sentinel
substring '_DOT_' (single-character pattern, so the replacement is
character-wise). -/
def replaceDots : List Char → List Char
  | [] => []
  | c :: rest => (if c = '.' then "_DOT_".toList else [c]) ++ replaceDots rest

/-- load_lora line 39: the adapter identifier derived from the weight-file
name. -/
def adapterName (weight_name : String) : String :=
  String.mk (replaceDots (withSuffixStripped weight_name.data))

/-- A weight-file name on which pathlib's PurePath round-trips: nonempty,
not the special components "." or "..", and free of the path separator. -/
def validWeightName (w : String) : Prop :=
  w ≠ "" ∧ w ≠ "." ∧ w ≠ ".." ∧ '/' ∉ w.data

instance (w : String) : Decidable (validWeightName w) := by
  unfold validWeightName; infer_instance

/- ── External model interface (spec section 6, consumed as black boxes). ── -/

/-- External deregistration (transformer.delete_adapters): removes each
given identifier from the registry.  It is modelled as touching only the
registry, so any residue in per-module containers is left in place — the
worst case the caller's defensive cleanup must cover. -/
def delete_adapters (t : Transformer) (names : List String) : Transformer :=
  { t with peft_config :=
      t.peft_config.map (fun cfg => cfg.filter (fun n => !(names.contains n))) }

/-- External registration (transformer.load_lora_adapter): records the
adapter under the given name, creating the registry if absent.  The weight
tensors themselves are owned by the external framework and do not affect
the bookkeeping this file verifies. -/
def load_lora_adapter (t : Transformer) (adapter_name : String) : Transformer :=
  { t with peft_config := some (t.peft_config.getD [] ++ [adapter_name]) }

/-- load_lora (lines 9-56): fetch+convert are external and keep no state
here; derive the identifier, delete a pre-existing adapter under it, then
register.  The prints are pure logging. -/
def load_lora (t : Transformer) (weight_name : String) : Transformer :=
  let adapter_name := adapterName weight_name
  let t1 :=
    match t.peft_config with
    | some cfg => if adapter_name ∈ cfg then delete_adapters t [adapter_name] else t
    | none => t
  load_lora_adapter t1 adapter_name

/- ── unload_all_loras (lines 58-99). ── -/

/-- Lines 76-85: per-module defensive cleanup — clear lora_A / lora_B /
scaling only when the attribute is present and is a dict. -/
def clearModuleCaches (m : Module) : Module :=
  { m with
    lora_A := m.lora_A.map (fun a =>
      match a with
      | .dict _ => .dict []
      | .nondict => .nondict),
    lora_B := m.lora_B.map (fun a =>
      match a with
      | .dict _ => .dict []
      | .nondict => .nondict),
    scaling := m.scaling.map (fun s =>
      match s with
      | .dict _ => ScalingAttr.dict []
      | .direct v => .direct v) }

/-- unload_all_loras: on a model whose peft_config exists and is truthy
(non-empty), deregister every known name, reset active_adapter when the
attribute exists, and clear each module's residual containers; otherwise a
logged no-op.  Returns the (same or mutated) model together with the list
of printed log lines. -/
def unload_all_loras (t : Transformer) : Transformer × List String :=
  match t.peft_config with
  | none => (t, ["Model does not have any LoRA adapters or peft_config."])
  | some cfg =>
    if cfg.isEmpty then
      (t, ["Model does not have any LoRA adapters or peft_config."])
    else
      let adapter_names := cfg
      if adapter_names.isEmpty then
        (t, ["No LoRA adapters found to remove."])
      else
        let t1 := delete_adapters t adapter_names
        let t2 := { t1 with active_adapter :=
          match t1.active_adapter with
          | some _ => some none
          | none => none }
        let t3 := { t2 with modules := t2.modules.map clearModuleCaches }
        (t3, ["Removing all LoRA adapters: " ++ String.intercalate ", " adapter_names,
              "All LoRA adapters have been completely removed."])

/- ── apply_lora_scaling (lines 101-131). ── -/

/-- Lines 118-123 / 126-131: overwrite one scale value with the new
strength, materializing it as a tensor on the prior value's device when the
prior value was a tensor, and as a plain number otherwise. -/
def overwriteScale (lora_strength : ℚ) : ScaleVal → ScaleVal
  | .tensor _ device => .tensor lora_strength device
  | .number _ => .number lora_strength

/-- Lines 115-131: update one module's scaling state.  Dict case: only when
the adapter name is a key is its entry overwritten; otherwise nothing
happens.  Non-dict case: the direct value is overwritten regardless of the
adapter name. -/
def applyToScaling (adapter_name : String) (lora_strength : ℚ) :
    ScalingAttr → ScalingAttr
  | .dict entries =>
    if entries.any (fun e => e.1 == adapter_name) then
      .dict (entries.map (fun e =>
        if e.1 == adapter_name then (e.1, overwriteScale lora_strength e.2) else e))
    else
      .dict entries
  | .direct v => .direct (overwriteScale lora_strength v)

/-- The single unconditional print of apply_lora_scaling (line 110). -/
def scalingLogMsg (adapter_name : String) (lora_strength : ℚ) : String :=
  "Setting LoRA " ++ adapter_name ++ " strength to " ++ toString lora_strength

/-- apply_lora_scaling: walk every module; modules without a scaling
attribute are skipped; the rest are updated via applyToScaling.  Returns
the model and the printed log lines (only the initial announcement — the
per-module walk prints nothing). -/
def apply_lora_scaling (t : Transformer) (adapter_name : String)
    (lora_strength : ℚ) : Transformer × List String :=
  ({ t with modules := t.modules.map (fun m =>
      { m with scaling := m.scaling.map (applyToScaling adapter_name lora_strength) }) },
   [scalingLogMsg adapter_name lora_strength])

/- ── set_adapters (lines 134-160). ── -/

/-- A weight value: a plain number or a mapping (per-submodule dict of
scalars), the two non-None element shapes of the Python annotation. -/
inductive WVal where
  | num (q : ℚ)
  | dict (d : List (String × ℚ))
deriving DecidableEq, Repr

/-- The adapter_names argument: a single string or a list of strings. -/
inductive NamesArg where
  | single (s : String)
  | list (l : List String)
deriving DecidableEq, Repr

/-- The weights argument: omitted/None, a single non-list value, or a list
of optional values. -/
inductive WeightsArg where
  | noneW
  | single (v : WVal)
  | list (l : List (Option WVal))
deriving DecidableEq, Repr

/-- Line 140: coerce a single adapter name into a one-element list. -/
def namesToList : NamesArg → List String
  | .single s => [s]
  | .list l => l

/-- Lines 144-145: a non-list weights argument (None included) is broadcast
to one entry per adapter; a list is taken as given. -/
def expandWeights (adapter_names : List String) : WeightsArg → List (Option WVal)
  | .noneW => List.replicate adapter_names.length none
  | .single v => List.replicate adapter_names.length (some v)
  | .list l => l

/-- The two exception classes set_adapters can raise: the explicit
ValueError of lines 147-150 and the KeyError a missing entry of the
external scale-fn mapping raises at line 157. -/
inductive LoraError where
  | lengthMismatch (names weights : Nat)
  | keyError (key : String)
deriving DecidableEq, Repr

/-- Python dict lookup: the value under the key, or a KeyError. -/
def dictGet {α : Type} (m : List (String × α)) (key : String) :
    Except LoraError α :=
  match m.lookup key with
  | some v => .ok v
  | none => .error (.keyError key)

/-- set_adapters, parameterized by the two external collaborators it uses:
the per-architecture scale-expansion mapping _SET_ADAPTER_SCALE_FN_MAPPING
and the activation routine set_weights_and_activate_adapters.  Normalizes
names and weights, raises on a length mismatch, defaults None weights to
1.0, resolves the expansion function under the fixed architecture key, and
delegates to activation. -/
def set_adapters
    (fnMapping : List (String × (Transformer → List WVal → List WVal)))
    (activate : Transformer → List String → List WVal → Transformer)
    (t : Transformer) (adapter_names : NamesArg) (weights : WeightsArg) :
    Except LoraError Transformer :=
  let names := namesToList adapter_names
  let ws := expandWeights names weights
  if names.length ≠ ws.length then
    .error (.lengthMismatch names.length ws.length)
  else
    let ws1 := ws.map (fun w => w.getD (WVal.num 1))
    match dictGet fnMapping "HunyuanVideoTransformer3DModel" with
    | .error e => .error e
    | .ok scale_expansion_fn => .ok (activate t names (scale_expansion_fn t ws1))

/- ────────────────────────── Theorems ────────────────────────── -/

/-- A small concrete model used by witnesses. -/
def sampleTransformer : Transformer :=
  { peft_config := none, active_adapter := none, modules := [] }

lemma dot_not_mem_replaceDots (l : List Char) : '.' ∉ replaceDots l := by
  induction l with
  | nil => simp [replaceDots]
  | cons c rest ih =>
    by_cases hc : c = '.'
    · subst hc
      simpa [replaceDots] using ih
    · simp [replaceDots, hc, ih]
      exact Ne.symm hc

lemma count_registry_load (t : Transformer) (w : String) :
    (registry (load_lora t w)).count (adapterName w) = 1 := by
  rcases hp : t.peft_config with _ | cfg
  · simp [load_lora, load_lora_adapter, registry, hp]
  · by_cases hmem : adapterName w ∈ cfg
    · have hz : List.count (adapterName w)
          (List.filter (fun n => !decide (n = adapterName w)) cfg) = 0 := by
        refine List.count_eq_zero.mpr ?_
        intro hc
        have hpp := List.of_mem_filter hc
        simp at hpp
      simp [load_lora, load_lora_adapter, registry, delete_adapters, hp, hmem, hz]
    · simp [load_lora, load_lora_adapter, registry, hp, hmem,
        List.count_eq_zero.mpr hmem]

/-- C1: load_lora registers the adapter under the identifier derived from
the weight-file name — the name with its final extension removed and every
remaining dot replaced by the sentinel substring _DOT_ — so the identifier
contains no dot; in particular the file name my.lora.safetensors yields
my_DOT_lora.  The validity hypothesis keeps to the file names (nonempty,
no path separator, not a special component) on which the pathlib
round-trip in line 39 is the embedded character-level derivation. -/
theorem C1_adapter_identifier (t : Transformer) (w : String)
    (hw : validWeightName w) :
    adapterName w ∈ registry (load_lora t w) ∧
    '.' ∉ (adapterName w).data ∧
    adapterName "my.lora.safetensors" = "my_DOT_lora" := by
  refine ⟨?_, dot_not_mem_replaceDots _, by decide⟩
  unfold load_lora load_lora_adapter registry
  simp

/-- C1 witness at the spec's own example file name. -/
theorem C1_witness :
    validWeightName "my.lora.safetensors" ∧
    (adapterName "my.lora.safetensors" ∈
        registry (load_lora sampleTransformer "my.lora.safetensors") ∧
      '.' ∉ (adapterName "my.lora.safetensors").data ∧
      adapterName "my.lora.safetensors" = "my_DOT_lora") :=
  ⟨by decide, C1_adapter_identifier sampleTransformer "my.lora.safetensors" (by decide)⟩

/-- C6: re-loading a weight-file name whose derived identifier is already
registered is a replace, not a duplicate and not an error: after one
load_lora, and equally after loading the same file name twice, the registry
holds exactly one adapter under the derived identifier (the pre-existing
one is deregistered before the new registration). -/
theorem C6_reload_replaces (t : Transformer) (w : String)
    (hw : validWeightName w) :
    (registry (load_lora t w)).count (adapterName w) = 1 ∧
    (registry (load_lora (load_lora t w) w)).count (adapterName w) = 1 :=
  ⟨count_registry_load t w, count_registry_load (load_lora t w) w⟩

/-- C6 witness: loading lora.safetensors twice on a model that already has
an unrelated adapter leaves exactly one adapter under the identifier. -/
theorem C6_witness :
    validWeightName "lora.safetensors" ∧
    ((registry (load_lora sampleTransformer "lora.safetensors")).count
        (adapterName "lora.safetensors") = 1 ∧
      (registry (load_lora (load_lora sampleTransformer "lora.safetensors")
          "lora.safetensors")).count (adapterName "lora.safetensors") = 1) :=
  ⟨by decide, C6_reload_replaces sampleTransformer "lora.safetensors" (by decide)⟩

/-- All three per-adapter containers of a module are empty (a non-dict or
absent attribute has no container). -/
def containersCleared (m : Module) : Bool :=
  (match m.lora_A with
    | some (.dict keys) => keys.isEmpty
    | _ => true) &&
  (match m.lora_B with
    | some (.dict keys) => keys.isEmpty
    | _ => true) &&
  (match m.scaling with
    | some (.dict entries) => entries.isEmpty
    | _ => true)

lemma containersCleared_clearModuleCaches (m : Module) :
    containersCleared (clearModuleCaches m) = true := by
  rcases m with ⟨a, b, s⟩
  rcases a with _ | (_ | _) <;> rcases b with _ | (_ | _) <;>
    rcases s with _ | (_ | _) <;> rfl

lemma unload_main_path (t : Transformer) (cfg : List String)
    (h1 : t.peft_config = some cfg) (h2 : cfg ≠ []) :
    (unload_all_loras t).1.peft_config = some [] ∧
    (unload_all_loras t).1.modules = t.modules.map clearModuleCaches := by
  have h2' : cfg.isEmpty = false := by
    simpa [List.isEmpty_iff] using h2
  have hfil : cfg.filter (fun n => !(cfg.contains n)) = [] := by
    refine List.filter_eq_nil_iff.mpr ?_
    intro a ha
    simpa using ha
  simp [unload_all_loras, h1, h2', delete_adapters, hfil]

/-- C7: on a model with at least one registered adapter, unload_all_loras
empties the adapter registry and leaves every module with empty lora_A /
lora_B / scaling containers — the per-module clearing is done by this
function itself, so it holds even though the external deregistration step
is modelled as touching nothing but the registry (maximal residue); and
load_lora followed immediately by unload_all_loras leaves the registry
empty. -/
theorem C7_unload_empties (t : Transformer) (cfg : List String)
    (h1 : t.peft_config = some cfg) (h2 : cfg ≠ []) :
    registry (unload_all_loras t).1 = [] ∧
    (∀ m ∈ (unload_all_loras t).1.modules, containersCleared m = true) ∧
    (∀ (u : Transformer) (w : String),
        registry (unload_all_loras (load_lora u w)).1 = []) := by
  obtain ⟨hreg, hmods⟩ := unload_main_path t cfg h1 h2
  refine ⟨by simp [registry, hreg], ?_, ?_⟩
  · intro m hm
    rw [hmods] at hm
    obtain ⟨m0, _, rfl⟩ := List.mem_map.mp hm
    exact containersCleared_clearModuleCaches m0
  · intro u w
    have hload : (load_lora u w).peft_config
        = some ((match u.peft_config with
            | some cfg0 =>
              if adapterName w ∈ cfg0 then delete_adapters u [adapterName w] else u
            | none => u).peft_config.getD [] ++ [adapterName w]) := rfl
    obtain ⟨hreg2, _⟩ := unload_main_path (load_lora u w) _ hload (by simp)
    simp [registry, hreg2]

/-- C7 witness: a model with one adapter and one module carrying populated
containers is fully cleared. -/
theorem C7_witness :
    (Transformer.mk (some ["a"]) (some (some "a"))
        [Module.mk (some (.dict ["a"])) (some (.dict ["a"]))
          (some (.dict [("a", ScaleVal.number 1)]))]).peft_config = some ["a"] ∧
    ("a" :: ([] : List String)) ≠ [] ∧
    (registry (unload_all_loras (Transformer.mk (some ["a"]) (some (some "a"))
        [Module.mk (some (.dict ["a"])) (some (.dict ["a"]))
          (some (.dict [("a", ScaleVal.number 1)]))])).1 = [] ∧
      (∀ m ∈ (unload_all_loras (Transformer.mk (some ["a"]) (some (some "a"))
          [Module.mk (some (.dict ["a"])) (some (.dict ["a"]))
            (some (.dict [("a", ScaleVal.number 1)]))])).1.modules,
          containersCleared m = true) ∧
      (∀ (u : Transformer) (w : String),
          registry (unload_all_loras (load_lora u w)).1 = [])) :=
  ⟨rfl, by decide,
    C7_unload_empties _ ["a"] rfl (by decide)⟩

/-- C8: on a model whose peft_config attribute is absent or empty,
unload_all_loras leaves the model exactly as it was (no deregistration, no
container clearing, no active-adapter change) and reports the situation
only through its log line — no exception, same model value returned. -/
theorem C8_unload_noop (t : Transformer)
    (h : t.peft_config = none ∨ t.peft_config = some []) :
    (unload_all_loras t).1 = t ∧
    (unload_all_loras t).2
      = ["Model does not have any LoRA adapters or peft_config."] := by
  rcases h with h | h <;> simp [unload_all_loras, h]

/-- C8 witness: the no-adapter model is returned unchanged with only the
log line. -/
theorem C8_witness :
    (sampleTransformer.peft_config = none ∨
      sampleTransformer.peft_config = some []) ∧
    ((unload_all_loras sampleTransformer).1 = sampleTransformer ∧
      (unload_all_loras sampleTransformer).2
        = ["Model does not have any LoRA adapters or peft_config."]) :=
  ⟨Or.inl rfl, C8_unload_noop sampleTransformer (Or.inl rfl)⟩

/-- The adapter name is a key of the module's per-adapter scale mapping
(false when the scaling state is absent or not a mapping). -/
def hasScaleKey (adapter_name : String) (m : Module) : Bool :=
  match m.scaling with
  | some (.dict entries) => entries.any (fun e => e.1 == adapter_name)
  | _ => false

/-- The module's scaling state is absent, or is a per-adapter mapping that
lacks the adapter name — the modules apply_lora_scaling leaves alone. -/
def mappingLacksKey (adapter_name : String) (m : Module) : Bool :=
  match m.scaling with
  | none => true
  | some (.dict entries) => !(entries.any (fun e => e.1 == adapter_name))
  | some (.direct _) => false

/-- A one-module model whose scaling state is a single direct value, not a
per-adapter mapping. -/
def directScaleTransformer : Transformer :=
  { peft_config := some ["a"],
    active_adapter := none,
    modules := [{ lora_A := none, lora_B := none,
                  scaling := some (.direct (.number 0)) }] }

/-- C4 counterexample: in directScaleTransformer the single module has no
scale mapping at all, so the identifier x is not a key of any scale
mapping of it, yet apply_lora_scaling with x mutates the model — the
non-dict branch (lines 124-131) overwrites a direct scaling value
regardless of the identifier.  The claim as stated says such a layer is
left untouched. -/
theorem C4_counterexample :
    hasScaleKey "x"
      { lora_A := none, lora_B := none,
        scaling := some (.direct (.number 0)) } = false ∧
    (apply_lora_scaling directScaleTransformer "x" 5).1 ≠ directScaleTransformer := by
  constructor
  · rfl
  · intro h
    have := congrArg (fun t => t.modules) h
    simp [apply_lora_scaling, directScaleTransformer, applyToScaling,
      overwriteScale] at this

/-- C4 (amended): apply_lora_scaling with identifier x changes only layers
where x is a key of their scale mapping or whose scale state is a single
non-mapping value (the latter overwritten regardless of identifier); every
layer whose scale state is absent or is a per-adapter mapping lacking x is
left untouched, silently skipped — the function raises nothing and prints
nothing per layer, its log being the single announcement line. -/
theorem C4_scaling_frame (t : Transformer) (x : String) (q : ℚ) (i : Nat)
    (h : i < t.modules.length)
    (h2 : i < (apply_lora_scaling t x q).1.modules.length)
    (hm : mappingLacksKey x (t.modules.get ⟨i, h⟩) = true) :
    (apply_lora_scaling t x q).1.modules.get ⟨i, h2⟩ = t.modules.get ⟨i, h⟩ ∧
    (apply_lora_scaling t x q).2 = [scalingLogMsg x q] := by
  refine ⟨?_, rfl⟩
  have hget : (apply_lora_scaling t x q).1.modules.get ⟨i, h2⟩
      = (fun m => { m with
          scaling := m.scaling.map (applyToScaling x q) }) (t.modules.get ⟨i, h⟩) := by
    simp [apply_lora_scaling]
  rw [hget]
  rcases hmod : t.modules.get ⟨i, h⟩ with ⟨a, b, s⟩
  rw [hmod] at hm
  rcases s with _ | (es | v)
  · rfl
  · have hany : es.any (fun e => e.1 == x) = false := by
      simpa [mappingLacksKey] using hm
    simp [applyToScaling, hany]
  · simp [mappingLacksKey] at hm

/-- C4 witness: a module whose mapping holds only the key y is untouched
by scaling x, and the log is the single announcement line. -/
theorem C4_witness :
    (0 < (Transformer.mk none none
        [Module.mk none none
          (some (.dict [("y", ScaleVal.number 2)]))]).modules.length) ∧
    (0 < (apply_lora_scaling (Transformer.mk none none
        [Module.mk none none
          (some (.dict [("y", ScaleVal.number 2)]))]) "x" 5).1.modules.length) ∧
    mappingLacksKey "x" ((Transformer.mk none none
        [Module.mk none none
          (some (.dict [("y", ScaleVal.number 2)]))]).modules.get
        ⟨0, by decide⟩) = true ∧
    ((apply_lora_scaling (Transformer.mk none none
        [Module.mk none none
          (some (.dict [("y", ScaleVal.number 2)]))]) "x" 5).1.modules.get
          ⟨0, by decide⟩
        = (Transformer.mk none none
          [Module.mk none none
            (some (.dict [("y", ScaleVal.number 2)]))]).modules.get ⟨0, by decide⟩ ∧
      (apply_lora_scaling (Transformer.mk none none
        [Module.mk none none
          (some (.dict [("y", ScaleVal.number 2)]))]) "x" 5).2
        = [scalingLogMsg "x" 5]) :=
  ⟨by decide, by decide, by decide,
    C4_scaling_frame _ "x" 5 0 (by decide) (by decide) (by decide)⟩

/-- The scale value stored for an adapter name in a module's per-adapter
mapping (none when absent or when the scaling state is not a mapping). -/
def scaleOf (m : Module) (adapter_name : String) : Option ScaleVal :=
  match m.scaling with
  | some (.dict entries) => entries.lookup adapter_name
  | _ => none

lemma lookup_some_any (es : List (String × ScaleVal)) (x : String)
    (v : ScaleVal) (h : es.lookup x = some v) :
    es.any (fun e => e.1 == x) = true := by
  induction es with
  | nil => simp [List.lookup] at h
  | cons e rest ih =>
    obtain ⟨k, w⟩ := e
    rw [List.lookup] at h
    by_cases hk : x = k
    · subst hk
      simp
    · have hbeq : (x == k) = false := beq_eq_false_iff_ne.mpr hk
      rw [hbeq] at h
      have hbeq2 : (k == x) = false :=
        beq_eq_false_iff_ne.mpr (fun hkk => hk hkk.symm)
      simp [hbeq2, ih h]

lemma lookup_map_overwrite (es : List (String × ScaleVal)) (x : String)
    (q : ℚ) (v : ScaleVal) (h : es.lookup x = some v) :
    (es.map (fun e =>
        if e.1 == x then (e.1, overwriteScale q e.2) else e)).lookup x
      = some (overwriteScale q v) := by
  induction es with
  | nil => simp [List.lookup] at h
  | cons e rest ih =>
    obtain ⟨k, w⟩ := e
    rw [List.lookup] at h
    by_cases hk : x = k
    · subst hk
      have hw : w = v := by
        rw [beq_self_eq_true] at h
        exact Option.some.inj h
      subst hw
      have hhead : (if ((x, w).1 == x) = true
          then ((x, w).1, overwriteScale q (x, w).2) else (x, w))
          = (x, overwriteScale q w) := by
        simp
      rw [List.map_cons, hhead, List.lookup, beq_self_eq_true]
    · have hbeq : (x == k) = false := beq_eq_false_iff_ne.mpr hk
      rw [hbeq] at h
      have hbeq2 : (k == x) = false :=
        beq_eq_false_iff_ne.mpr (fun hkk => hk hkk.symm)
      have hhead : (if ((k, w).1 == x) = true
          then ((k, w).1, overwriteScale q (k, w).2) else (k, w))
          = (k, w) := by
        simp [hbeq2]
      rw [List.map_cons, hhead, List.lookup, hbeq]
      exact ih h

/-- C5: when apply_lora_scaling overwrites the entry for the identifier in
a module's per-adapter scale mapping, the new strength keeps the prior
representation — a tensor entry becomes a tensor of the new strength on
the same device, a plain-number entry becomes the plain new number. -/
theorem C5_overwrite_preserves_representation (t : Transformer) (x : String)
    (q : ℚ) (i : Nat) (h : i < t.modules.length)
    (h2 : i < (apply_lora_scaling t x q).1.modules.length) :
    (∀ v d, scaleOf (t.modules.get ⟨i, h⟩) x = some (.tensor v d) →
        scaleOf ((apply_lora_scaling t x q).1.modules.get ⟨i, h2⟩) x
          = some (.tensor q d)) ∧
    (∀ v, scaleOf (t.modules.get ⟨i, h⟩) x = some (.number v) →
        scaleOf ((apply_lora_scaling t x q).1.modules.get ⟨i, h2⟩) x
          = some (.number q)) := by
  have hget : (apply_lora_scaling t x q).1.modules.get ⟨i, h2⟩
      = (fun m => { m with
          scaling := m.scaling.map (applyToScaling x q) }) (t.modules.get ⟨i, h⟩) := by
    simp [apply_lora_scaling]
  have key : ∀ val : ScaleVal, scaleOf (t.modules.get ⟨i, h⟩) x = some val →
      scaleOf ((apply_lora_scaling t x q).1.modules.get ⟨i, h2⟩) x
        = some (overwriteScale q val) := by
    intro val hval
    rw [hget]
    revert hval
    rcases t.modules.get ⟨i, h⟩ with ⟨a, b, s⟩
    intro hval
    rcases s with _ | (es | v0)
    · simp [scaleOf] at hval
    · have hlk : es.lookup x = some val := by simpa [scaleOf] using hval
      have hany := lookup_some_any es x val hlk
      have hred : Option.map (applyToScaling x q) (some (ScalingAttr.dict es))
          = some (ScalingAttr.dict (es.map (fun e =>
              if e.1 == x then (e.1, overwriteScale q e.2) else e))) := by
        simp [applyToScaling, hany]
      show scaleOf
          (⟨a, b, Option.map (applyToScaling x q)
            (some (ScalingAttr.dict es))⟩ : Module) x
          = some (overwriteScale q val)
      rw [hred]
      exact lookup_map_overwrite es x q val hlk
    · simp [scaleOf] at hval
  exact ⟨fun v d hv => key (.tensor v d) hv, fun v hv => key (.number v) hv⟩

/-- C5 witness: a mapping holding a tensor entry on device cuda0 and a
number entry under other keys; overwriting x keeps tensor-ness and the
device, and plain numbers stay plain. -/
theorem C5_witness :
    (0 < (Transformer.mk none none
        [Module.mk none none
          (some (.dict [("x", ScaleVal.tensor 1 "cuda0")]))]).modules.length) ∧
    (0 < (apply_lora_scaling (Transformer.mk none none
        [Module.mk none none
          (some (.dict [("x", ScaleVal.tensor 1 "cuda0")]))]) "x" 5).1.modules.length) ∧
    ((∀ v d, scaleOf ((Transformer.mk none none
        [Module.mk none none
          (some (.dict [("x", ScaleVal.tensor 1 "cuda0")]))]).modules.get
          ⟨0, by decide⟩) "x" = some (.tensor v d) →
        scaleOf ((apply_lora_scaling (Transformer.mk none none
          [Module.mk none none
            (some (.dict [("x", ScaleVal.tensor 1 "cuda0")]))]) "x" 5).1.modules.get
            ⟨0, by decide⟩) "x" = some (.tensor 5 d)) ∧
      (∀ v, scaleOf ((Transformer.mk none none
          [Module.mk none none
            (some (.dict [("x", ScaleVal.tensor 1 "cuda0")]))]).modules.get
            ⟨0, by decide⟩) "x" = some (.number v) →
          scaleOf ((apply_lora_scaling (Transformer.mk none none
            [Module.mk none none
              (some (.dict [("x", ScaleVal.tensor 1 "cuda0")]))]) "x" 5).1.modules.get
              ⟨0, by decide⟩) "x" = some (.number 5))) :=
  ⟨by decide, by decide,
    C5_overwrite_preserves_representation _ "x" 5 0 (by decide) (by decide)⟩

/-- C2: a weights argument given explicitly as a list whose length differs
from the number of adapter identifiers makes set_adapters fail with the
length-mismatch invalid-argument error.  The conclusion holds for every
scale-fn mapping and every activation routine and does not depend on
either, so the error is raised before the scale-expansion lookup and
before activation — no model mutation can have occurred. -/
theorem C2_length_mismatch_fatal
    (fnMapping : List (String × (Transformer → List WVal → List WVal)))
    (activate : Transformer → List String → List WVal → Transformer)
    (t : Transformer) (adapter_names : NamesArg) (ws : List (Option WVal))
    (h : (namesToList adapter_names).length ≠ ws.length) :
    set_adapters fnMapping activate t adapter_names (.list ws)
      = .error (.lengthMismatch (namesToList adapter_names).length ws.length) := by
  simp [set_adapters, expandWeights, h]

/-- C2 witness: the spec's example — two identifiers, one weight. -/
theorem C2_witness :
    (namesToList (.list ["a", "b"])).length ≠ [some (WVal.num 5)].length ∧
    set_adapters [] (fun t _ _ => t) sampleTransformer (.list ["a", "b"])
        (.list [some (WVal.num 5)])
      = .error (.lengthMismatch 2 1) :=
  ⟨by decide,
    C2_length_mismatch_fatal [] (fun t _ _ => t) sampleTransformer
      (.list ["a", "b"]) [some (WVal.num 5)] (by decide)⟩

/-- C3: a non-list weights argument is broadcast to one entry per adapter
identifier and None weights then default to 1.0: a single value behaves as
the list repeating it, an omitted weights argument behaves as the list of
1.0 defaults; in particular identifiers a, b with the single weight 5
proceed as with the list of weights 5, 5, and a single identifier a with
weights omitted is set_adapters with identifiers a and weights 1.0. -/
theorem C3_broadcast_and_default
    (fnMapping : List (String × (Transformer → List WVal → List WVal)))
    (activate : Transformer → List String → List WVal → Transformer)
    (t : Transformer) :
    (∀ (ns : NamesArg) (v : WVal),
        set_adapters fnMapping activate t ns (.single v)
          = set_adapters fnMapping activate t ns
              (.list (List.replicate (namesToList ns).length (some v)))) ∧
    (∀ ns : NamesArg,
        set_adapters fnMapping activate t ns .noneW
          = set_adapters fnMapping activate t ns
              (.list (List.replicate (namesToList ns).length (some (WVal.num 1))))) ∧
    set_adapters fnMapping activate t (.list ["a", "b"]) (.single (.num 5))
      = set_adapters fnMapping activate t (.list ["a", "b"])
          (.list [some (.num 5), some (.num 5)]) ∧
    set_adapters fnMapping activate t (.single "a") .noneW
      = set_adapters fnMapping activate t (.list ["a"]) (.list [some (.num 1)]) := by
  refine ⟨?_, ?_, ?_, ?_⟩
  · intro ns v
    simp [set_adapters, expandWeights]
  · intro ns
    simp [set_adapters, expandWeights, List.map_replicate]
  · simp [set_adapters, expandWeights, namesToList]
  · simp [set_adapters, expandWeights, namesToList]

/-- C9: set_adapters resolves the scale-expansion function from the
external per-architecture mapping under the fixed key
HunyuanVideoTransformer3DModel; when the mapping has no entry under that
key, the lookup raises a KeyError that set_adapters does not catch — the
failure propagates to the caller. -/
theorem C9_missing_expansion_entry_fatal
    (fnMapping : List (String × (Transformer → List WVal → List WVal)))
    (activate : Transformer → List String → List WVal → Transformer)
    (t : Transformer) (adapter_names : NamesArg) (weights : WeightsArg)
    (hlen : (namesToList adapter_names).length
      = (expandWeights (namesToList adapter_names) weights).length)
    (hmiss : fnMapping.lookup "HunyuanVideoTransformer3DModel" = none) :
    set_adapters fnMapping activate t adapter_names weights
      = .error (.keyError "HunyuanVideoTransformer3DModel") := by
  simp [set_adapters, dictGet, hlen, hmiss]

/-- C9 witness: an empty mapping makes a well-formed call fail with the
KeyError for the fixed architecture key. -/
theorem C9_witness :
    (namesToList (.single "a")).length
      = (expandWeights (namesToList (.single "a")) .noneW).length ∧
    (([] : List (String × (Transformer → List WVal → List WVal))).lookup
        "HunyuanVideoTransformer3DModel" = none) ∧
    set_adapters [] (fun t _ _ => t) sampleTransformer (.single "a") .noneW
      = .error (.keyError "HunyuanVideoTransformer3DModel") :=
  ⟨rfl, rfl,
    C9_missing_expansion_entry_fatal [] (fun t _ _ => t) sampleTransformer
      (.single "a") .noneW rfl rfl⟩

lemma dictGet_not_lengthMismatch {α : Type}
    (m : List (String × α)) (key : String) (a b : Nat) :
    dictGet m key ≠ Except.error (LoraError.lengthMismatch a b) := by
  unfold dictGet
  rcases m.lookup key with _ | v <;> simp

lemma set_adapters_no_mismatch_of_len
    (fnMapping : List (String × (Transformer → List WVal → List WVal)))
    (activate : Transformer → List String → List WVal → Transformer)
    (t : Transformer) (ns : NamesArg) (w : WeightsArg)
    (hlen : (namesToList ns).length
      = (expandWeights (namesToList ns) w).length) (a b : Nat) :
    set_adapters fnMapping activate t ns w
      ≠ .error (.lengthMismatch a b) := by
  have hif : ¬ ((namesToList ns).length
      ≠ (expandWeights (namesToList ns) w).length) := fun hc => hc hlen
  simp only [set_adapters]
  rw [if_neg hif]
  split
  · rename_i e heq
    have h1 := dictGet_not_lengthMismatch fnMapping
      "HunyuanVideoTransformer3DModel" a b
    rw [heq] at h1
    intro hcon
    injection hcon with he
    exact h1 (by rw [he])
  · intro hcon
    exact Except.noConfusion hcon

/-- C10: the length-mismatch error occurs exactly when the weights
argument is an explicit list whose length differs from the number of
adapter identifiers — a broadcast non-list weights argument can never
trigger it; and with an empty identifier list and a non-list weights
argument no error occurs: activation is invoked with the empty identifier
list and the empty weight list (the expansion function maps the empty
weight list to itself). -/
theorem C10_mismatch_iff_explicit_list
    (fnMapping : List (String × (Transformer → List WVal → List WVal)))
    (activate : Transformer → List String → List WVal → Transformer)
    (t : Transformer) (fn : Transformer → List WVal → List WVal) (v : WVal)
    (hfn : fnMapping.lookup "HunyuanVideoTransformer3DModel" = some fn)
    (hempty : fn t [] = []) :
    (∀ (ns : NamesArg) (weights : WeightsArg),
        (∃ a b, set_adapters fnMapping activate t ns weights
            = .error (.lengthMismatch a b))
          ↔ ∃ l, weights = .list l ∧ l.length ≠ (namesToList ns).length) ∧
    set_adapters fnMapping activate t (.list []) (.single v)
      = .ok (activate t [] []) ∧
    set_adapters fnMapping activate t (.list []) .noneW
      = .ok (activate t [] []) := by
  refine ⟨?_, ?_, ?_⟩
  · intro ns weights
    constructor
    · rintro ⟨a, b, hab⟩
      rcases weights with _ | v0 | l
      · exact absurd hab (set_adapters_no_mismatch_of_len fnMapping activate t
          ns .noneW (by simp [expandWeights]) a b)
      · exact absurd hab (set_adapters_no_mismatch_of_len fnMapping activate t
          ns (.single v0) (by simp [expandWeights]) a b)
      · refine ⟨l, rfl, ?_⟩
        intro hlen
        exact absurd hab (set_adapters_no_mismatch_of_len fnMapping activate t
          ns (.list l) (by simp [expandWeights, hlen]) a b)
    · rintro ⟨l, rfl, hlen⟩
      refine ⟨(namesToList ns).length, l.length, ?_⟩
      have hne : (namesToList ns).length ≠ l.length := fun hh => hlen hh.symm
      simp [set_adapters, expandWeights, hne]
  · simp [set_adapters, expandWeights, namesToList, dictGet, hfn, hempty]
  · simp [set_adapters, expandWeights, namesToList, dictGet, hfn, hempty]

/-- C10 witness: with the identity expansion function registered and an
empty identifier list, a scalar weight yields activation on two empty
lists; the mismatch behaviour is witnessed by the iff at work. -/
theorem C10_witness :
    ([("HunyuanVideoTransformer3DModel",
        fun (_ : Transformer) (w : List WVal) => w)].lookup
      "HunyuanVideoTransformer3DModel"
        = some (fun (_ : Transformer) (w : List WVal) => w)) ∧
    ((fun (_ : Transformer) (w : List WVal) => w) sampleTransformer [] = []) ∧
    ((∀ (ns : NamesArg) (weights : WeightsArg),
        (∃ a b, set_adapters
            [("HunyuanVideoTransformer3DModel",
              fun (_ : Transformer) (w : List WVal) => w)]
            (fun t _ _ => t) sampleTransformer ns weights
            = .error (.lengthMismatch a b))
          ↔ ∃ l, weights = .list l ∧ l.length ≠ (namesToList ns).length) ∧
      set_adapters
          [("HunyuanVideoTransformer3DModel",
            fun (_ : Transformer) (w : List WVal) => w)]
          (fun t _ _ => t) sampleTransformer (.list []) (.single (WVal.num 5))
        = .ok ((fun t _ _ => t) sampleTransformer ([] : List String) ([] : List WVal)) ∧
      set_adapters
          [("HunyuanVideoTransformer3DModel",
            fun (_ : Transformer) (w : List WVal) => w)]
          (fun t _ _ => t) sampleTransformer (.list []) .noneW
        = .ok ((fun t _ _ => t) sampleTransformer ([] : List String) ([] : List WVal))) :=
  ⟨rfl, rfl,
    C10_mismatch_iff_explicit_list
      [("HunyuanVideoTransformer3DModel",
        fun (_ : Transformer) (w : List WVal) => w)]
      (fun t _ _ => t) sampleTransformer
      (fun (_ : Transformer) (w : List WVal) => w) (WVal.num 5) rfl rfl⟩

end FramePackLora
